import Mathlib

/-!
Verification development for the FantasiaDataPlaneAgent repository.

Shallow embedding of the components the claims concern:

* `src/utils/connection_state.py` — the `ConnectionStateManager` (circuit
  breaker).  Its public coroutines serialize on a single non-reentrant
  `asyncio.Lock`; a coroutine that, while holding the lock, awaits another
  method that acquires the same lock never resumes.  Methods are therefore
  embedded as functions into `Option`: `none` models a call that never
  returns (the awaiting task is suspended forever on the held lock).
* `src/services/redis_client.py` — queue-store operations over an explicit
  broker state (queues as lists of serialized strings, a key-value table,
  the `msg_counter` key).
* `src/services/redis_consumer.py` — one iteration of the usage-record
  consumer loop and the usage-record handler.
* `src/services/control_plane_client.py` — the retrying request primitive
  and the health check.
* `src/services/health_metrics.py` — one iteration of the heartbeat loop.

Wall-clock times and backoff delays are embedded as integers (the Python
code uses floats; every value any claim turns on — the test configuration
delay 5, multiplier 2, cap 300, and the epoch seconds — is integral, and
float arithmetic on them is exact).  Numeric payload fields of messages are
embedded as rationals.  Log statements are embedded as no-ops except where
a call made while holding the lock changes control flow.
-/

namespace DataPlaneAgent

/-- Backoff configuration read by `ConnectionStateManager.get_backoff_delay`
(fields `control_plane_initial_error_delay`, `control_plane_error_backoff_multiplier`,
`control_plane_max_backoff` of the config object passed to the constructor; the
unit tests build it with delay 5, multiplier 2, cap 300). -/
structure BackoffConfig where
  initial_error_delay : ℤ
  error_backoff_multiplier : ℤ
  max_backoff : ℤ
deriving Repr, DecidableEq

/-- The connection-state fields set by `ConnectionStateManager.__init__`
(src/utils/connection_state.py lines 24-31).  Times are wall-clock seconds. -/
structure ConnState where
  is_connected : Bool
  consecutive_failures : ℕ
  last_failure_time : Option ℤ
  last_success_time : Option ℤ
  circuit_open : Bool
  circuit_open_time : Option ℤ
deriving Repr, DecidableEq

/-- The state built by `__init__`: connected, no failures, circuit closed. -/
def initial_conn_state : ConnState :=
  { is_connected := true
    consecutive_failures := 0
    last_failure_time := none
    last_success_time := none
    circuit_open := false
    circuit_open_time := none }

/-- Python truthiness of an `Optional[float]`: `None` and `0.0` are falsy. -/
def py_truthy : Option ℤ → Bool
  | none => false
  | some t => decide (t ≠ 0)

/-- Body of `get_backoff_delay` (lines 86-93), without the lock acquisition:
0 when there are no failures, else
`initial * multiplier ^ (failures - 1)` capped at `max_backoff`. -/
def i_min (a b : ℤ) : ℤ := if a ≤ b then a else b

def backoff_delay_body (cfg : BackoffConfig) (st : ConnState) : ℤ :=
  if st.consecutive_failures = 0 then 0
  else
    i_min (cfg.initial_error_delay *
          cfg.error_backoff_multiplier ^ (st.consecutive_failures - 1))
      cfg.max_backoff

/-- `get_backoff_delay` called as a top-level coroutine (lines 83-93): the lock
is free, so the call acquires it, computes the body and returns. -/
def get_backoff_delay (cfg : BackoffConfig) (st : ConnState) : ℤ :=
  backoff_delay_body cfg st

/-- `mark_success` (lines 33-55): reconnects, zeroes the failure count, closes
the circuit, records the success time.  The logging on lines 45-55 does not
touch the lock, so the call always returns. -/
def mark_success (st : ConnState) (now : ℤ) : ConnState :=
  { st with
    is_connected := true
    consecutive_failures := 0
    last_success_time := some now
    circuit_open := false
    circuit_open_time := none }

/-- `mark_failure` (lines 57-81).  The body runs under `async with self._lock`.
It disconnects, increments the failure count and records the failure time; when
the new count reaches 3 it opens the circuit and stamps `circuit_open_time`.
On the transition from closed to open (`was_already_open` false, line 69) it
then evaluates `await self.get_backoff_delay()` (line 70) — which acquires the
same, still-held, non-reentrant `asyncio.Lock` and therefore never resumes:
the call diverges, embedded as `none`. -/
def mark_failure (st : ConnState) (now : ℤ) : Option ConnState :=
  let st1 : ConnState :=
    { st with
      is_connected := false
      consecutive_failures := st.consecutive_failures + 1
      last_failure_time := some now }
  if st1.consecutive_failures ≥ 3 then
    let was_already_open := st1.circuit_open
    let st2 : ConnState := { st1 with circuit_open := true, circuit_open_time := some now }
    if was_already_open then some st2
    else none
  else some st1

/-- `should_attempt_request` (lines 95-117).  With the circuit closed it
returns `true` (line 98-99).  With the circuit open and both
`circuit_open_time` and `last_failure_time` truthy (line 101), it evaluates
`await self.get_backoff_delay()` on line 103 while still holding the lock —
the same re-entrant acquisition as in `mark_failure`, so the call never
returns (`none`).  Only when one of the two times is falsy does it fall
through to `return False`.  No field is written on any path. -/
def should_attempt_request (st : ConnState) : Option Bool :=
  if st.circuit_open = false then some true
  else if py_truthy st.circuit_open_time && py_truthy st.last_failure_time then
    none
  else some false

/-- A sequence of `mark_failure` calls at the given times, stopped at the
first call that never returns. -/
def mark_failure_iter (times : List ℤ) (st : ConnState) : Option ConnState :=
  match times with
  | [] => some st
  | t :: ts => (mark_failure st t).bind (mark_failure_iter ts)

/-! ## Queue store (src/services/redis_client.py)

The broker state: each named list (head of the Lean list = left end, the
`LPUSH` side), the string key-value table, and the integer behind the
`msg_counter` key used by `reliable_pop_message`.  Queue items are the
serialized message strings as stored by the broker. -/

structure RedisState where
  queues : String → List String
  kv : String → Option String
  msg_counter : ℕ

/-- Contents of one named list. -/
def get_queue (st : RedisState) (q : String) : List String :=
  st.queues q

/-- Replace the contents of one named list. -/
def set_queue (st : RedisState) (q : String) (l : List String) : RedisState :=
  { st with queues := fun n => if n = q then l else st.queues n }

/-- `SET key value`. -/
def kv_set (st : RedisState) (k v : String) : RedisState :=
  { st with kv := fun n => if n = k then some v else st.kv n }

/-- `BRPOPLPUSH source dest`: atomically pop the rightmost item of `source`
and push it on the left of `dest`; `none` when `source` is empty (timeout). -/
def brpoplpush (st : RedisState) (src dst : String) : Option String × RedisState :=
  match (st.queues src).getLast? with
  | none => (none, st)
  | some item =>
    let st1 := set_queue st src (st.queues src).dropLast
    (some item, set_queue st1 dst (item :: get_queue st1 dst))

/-- `LREM queue 1 value`: remove the first occurrence of `value` scanning from
the head. -/
def lrem_one : List String → String → List String
  | [], _ => []
  | x :: xs, v => if x = v then xs else x :: lrem_one xs v

/-- How `str()` renders the bytes value a `GET` on this client yields: the
connection pool is built without decode_responses, so `GET` returns bytes
and `str(b"v")` is the b-quoted repr (rendered here for values made of
printable characters with no escapes). -/
def py_bytes_repr (s : String) : String := "b\x27" ++ s ++ "\x27"

/-- `reliable_pop_message` (lines 160-193): `BRPOPLPUSH` the serialized
message from `source_queue` into `processing_queue`; then `GET` the cached
id under the key `msg_id:<payload>` — on a hit, line 184 returns
`str(message_id)` of the BYTES the client yields, i.e. the b-quoted repr of
the cached value, not the value itself — or generate `source_queue:<n>`
from the incremented `msg_counter` and cache it (lines 178-182), returning
that fresh str unchanged.  The id is returned together with the moved
payload (the code hands back `json.loads(result)`; the serialized form of
that payload is the raw string itself). -/
def reliable_pop_message (st : RedisState) (source_queue processing_queue : String) :
    Option (String × String) × RedisState :=
  match brpoplpush st source_queue processing_queue with
  | (none, st1) => (none, st1)
  | (some payload, st1) =>
    match st1.kv ("msg_id:" ++ payload) with
    | some message_id => (some (py_bytes_repr message_id, payload), st1)
    | none =>
      let counter := st1.msg_counter + 1
      let message_id := source_queue ++ ":" ++ toString counter
      let st2 := kv_set { st1 with msg_counter := counter } ("msg_id:" ++ payload) message_id
      (some (message_id, payload), st2)

/-- `acknowledge_message` (lines 195-217): `LREM processing_queue 1 message_data`. -/
def acknowledge_message (st : RedisState) (processing_queue message_data : String) :
    RedisState :=
  set_queue st processing_queue (lrem_one (get_queue st processing_queue) message_data)

/-- Serialization of the dead-letter entry built on lines 231-236 (a json
object wrapping the decoded message, the error text, the failure time and the
originating processing queue); embedded as an injective record string. -/
def dlq_entry (message_data error_info processing_queue : String) : String :=
  "dlq/" ++ processing_queue ++ "/" ++ error_info ++ "/" ++ message_data

/-- `move_to_dead_letter_queue` (lines 219-256): `LPUSH` the dead-letter entry
onto the configured dead-letter queue, then `LREM` the message from the
processing queue. -/
def move_to_dead_letter_queue (st : RedisState)
    (dead_letter_queue processing_queue message_data error_info : String) : RedisState :=
  let st1 := set_queue st dead_letter_queue
    (dlq_entry message_data error_info processing_queue :: get_queue st dead_letter_queue)
  set_queue st1 processing_queue (lrem_one (get_queue st1 processing_queue) message_data)

/-- The methods the class `RedisClient` defines
(src/services/redis_client.py lines 18-377).  `recover_processing_queues`,
which `RedisConsumerService.start` invokes on line 59 of
src/services/redis_consumer.py, is not among them: that call raises
`AttributeError`. -/
def redis_client_method_names : List String :=
  ["connect", "disconnect", "is_connected", "_ensure_connected",
   "push_message", "pop_message", "reliable_pop_message", "acknowledge_message",
   "move_to_dead_letter_queue", "get_queue_length", "get_all_queue_lengths",
   "set_cache", "get_cache", "delete_cache", "health_check"]

/-- Outcome of the recovery step of `RedisConsumerService.start`. -/
inductive RecoveryOutcome
  | recovered (n : ℕ)
  | error_logged (e : String)
deriving Repr, DecidableEq

/-- The startup recovery step of `RedisConsumerService.start`
(src/services/redis_consumer.py lines 58-69): it calls
`self.redis_client.recover_processing_queues(source_queues)` inside a
`try`, logging any exception and continuing.  `RedisClient` defines no such
method, so attribute lookup raises `AttributeError`, the handler on lines
65-69 logs it, and the broker state is untouched. -/
def consumer_start_recovery (st : RedisState) : RecoveryOutcome × RedisState :=
  if redis_client_method_names.contains "recover_processing_queues" then
    (RecoveryOutcome.recovered 0, st)
  else
    (RecoveryOutcome.error_logged "AttributeError", st)

/-! ## Error handling of the queue-client operations (C8)

Every operation of `RedisClient` wraps exactly one underlying broker call in
`try/except` (none loops or retries).  Each embedding below maps the outcome
of that broker call to the outcome the caller sees: operations that re-raise
propagate the error, the two swallowing operations return a substitute. -/

inductive JsonVal
  | s (v : String)
  | i (v : Int)
  | q (v : ℚ)
deriving Repr, DecidableEq

/-- A decoded json object: the result of `json.loads` on a message. -/
abbrev JsonObj := List (String × JsonVal)

/-- A Python runtime value as far as the consumer loop distinguishes them:
the pair returned by `reliable_pop_message`, a dict, or a string. -/
inductive PyVal
  | str (s : String)
  | obj (fields : JsonObj)
  | pair (a b : PyVal)
deriving Repr, DecidableEq

def PyVal.type_name : PyVal → String
  | PyVal.str _ => "str"
  | PyVal.obj _ => "dict"
  | PyVal.pair _ _ => "tuple"

/-- The method call `value.get(key, default)`: defined on a dict; on any
other value the attribute lookup itself raises `AttributeError`. -/
def py_get (v : PyVal) (key : String) (dflt : JsonVal) : Except String JsonVal :=
  match v with
  | PyVal.obj fields => Except.ok ((List.lookup key fields).getD dflt)
  | _ => Except.error
      ("AttributeError: " ++ v.type_name ++ " object has no attribute get")

def JsonVal.dump : JsonVal → String
  | JsonVal.s v => "s:" ++ v
  | JsonVal.i v => "i:" ++ toString v
  | JsonVal.q v => "q:" ++ toString v

def dump_fields : JsonObj → String
  | [] => ""
  | (k, v) :: rest => k ++ "=" ++ JsonVal.dump v ++ ";" ++ dump_fields rest

/-- Stand-in for `json.dumps` on the values the loop serializes. -/
def py_json_dumps : PyVal → String
  | PyVal.str s => s
  | PyVal.obj o => "obj/" ++ dump_fields o
  | PyVal.pair a b => "arr/" ++ py_json_dumps a ++ "," ++ py_json_dumps b

/-- `UsageRecord` (src/models/__init__.py lines 35-68; the field-identical
variant in src/models/usage.py lines 11-43 agrees on every modelled fact):
three required identifier strings, `product_code` defaulting to
SPEECH_TO_TEXT_STANDARD, three non-negative numeric fields, and the two
timestamps with the validator requiring response not before request. -/
structure UsageRecord where
  transaction_id : String
  api_session_id : String
  customer_id : String
  product_code : String
  connection_duration_seconds : ℚ
  data_bytes_processed : Int
  audio_duration_seconds : ℚ
  request_timestamp : ℚ
  response_timestamp : ℚ
deriving Repr, DecidableEq

/-- `EnrichedUsageRecord` (src/models/__init__.py lines 71-80): the usage
record plus the agent metadata. -/
structure EnrichedUsageRecord extends UsageRecord where
  server_instance_id : String
  api_server_region : String
  processing_timestamp : ℚ
  agent_version : String
deriving Repr, DecidableEq

/-- The configuration fields the usage-record path reads
(src/config/config.py: `server_id`, `server_region`, `app_version`). -/
structure AgentConfig where
  server_id : String
  server_region : String
  app_version : String
deriving Repr, DecidableEq

def field_str (o : JsonObj) (k : String) : Except String String :=
  match List.lookup k o with
  | some (JsonVal.s v) => Except.ok v
  | _ => Except.error ("validation error: " ++ k)

def field_num (o : JsonObj) (k : String) : Except String ℚ :=
  match List.lookup k o with
  | some (JsonVal.q v) => Except.ok v
  | some (JsonVal.i v) => Except.ok (v : ℚ)
  | _ => Except.error ("validation error: " ++ k)

def field_int (o : JsonObj) (k : String) : Except String Int :=
  match List.lookup k o with
  | some (JsonVal.i v) => Except.ok v
  | _ => Except.error ("validation error: " ++ k)

def ensure (b : Bool) (e : String) : Except String Unit :=
  if b then Except.ok () else Except.error e

/-- `UsageRecord(**message_data)`: pydantic validation of the dict — each
required field present with the right type, the `ge=0` bounds, the
`product_code` default and enum check, and the `response_after_request`
validator. -/
def parse_usage_record (o : JsonObj) : Except String UsageRecord := do
  let transaction_id ← field_str o "transaction_id"
  let api_session_id ← field_str o "api_session_id"
  let customer_id ← field_str o "customer_id"
  let product_code ←
    match List.lookup "product_code" o with
    | none => Except.ok "SPEECH_TO_TEXT_STANDARD"
    | some (JsonVal.s v) =>
      if v = "SPEECH_TO_TEXT_STANDARD" then Except.ok v
      else Except.error "validation error: product_code"
    | some _ => Except.error "validation error: product_code"
  let connection_duration_seconds ← field_num o "connection_duration_seconds"
  let _ ← ensure (decide (0 ≤ connection_duration_seconds))
    "validation error: connection_duration_seconds"
  let data_bytes_processed ← field_int o "data_bytes_processed"
  let _ ← ensure (decide (0 ≤ data_bytes_processed))
    "validation error: data_bytes_processed"
  let audio_duration_seconds ← field_num o "audio_duration_seconds"
  let _ ← ensure (decide (0 ≤ audio_duration_seconds))
    "validation error: audio_duration_seconds"
  let request_timestamp ← field_num o "request_timestamp"
  let response_timestamp ← field_num o "response_timestamp"
  let _ ← ensure (decide (¬ response_timestamp < request_timestamp))
    "validation error: response_timestamp must be after request_timestamp"
  Except.ok
    { transaction_id := transaction_id
      api_session_id := api_session_id
      customer_id := customer_id
      product_code := product_code
      connection_duration_seconds := connection_duration_seconds
      data_bytes_processed := data_bytes_processed
      audio_duration_seconds := audio_duration_seconds
      request_timestamp := request_timestamp
      response_timestamp := response_timestamp }

/-- The attribute names `submit_usage_record` reads off the record while
building the POST body (control_plane_client.py lines 149-163). -/
def submit_payload_field_names : List String :=
  ["transaction_id", "customer_id", "product_code", "server_instance_id",
   "api_server_region", "processing_timestamp", "agent_version",
   "connection_duration_seconds", "data_bytes_processed",
   "audio_duration_seconds", "request_count", "request_timestamp",
   "response_timestamp"]

/-- The attributes `EnrichedUsageRecord` defines (models/__init__.py lines
35-80: the nine `UsageRecord` fields plus the four enrichment fields).
`request_count` is not among them. -/
def enriched_usage_record_attrs : List String :=
  ["transaction_id", "api_session_id", "customer_id", "product_code",
   "connection_duration_seconds", "data_bytes_processed",
   "audio_duration_seconds", "request_timestamp", "response_timestamp",
   "server_instance_id", "api_server_region", "processing_timestamp",
   "agent_version"]

/-- `submit_usage_record` (control_plane_client.py lines 141-180): building
the body dict reads each payload field off the record, and the read of
`usage_record.request_count` on line 160 raises `AttributeError` — no
usage-record model defines that attribute — BEFORE `_make_request` is ever
reached.  `authority` abstracts the outcome of the POST `_make_request`
would issue; the Bool of the result records whether a POST was issued. -/
def submit_usage_record (authority : EnrichedUsageRecord → Bool)
    (record : EnrichedUsageRecord) : Except String Unit × Bool :=
  if submit_payload_field_names.all
      (fun f => enriched_usage_record_attrs.contains f) then
    if authority record then (Except.ok (), true)
    else (Except.error "HTTPError", true)
  else
    (Except.error
      "AttributeError: EnrichedUsageRecord object has no attribute request_count",
     false)

/-- `submit_usage_records` (control_plane_client.py lines 182-211): submit
each record via `submit_usage_record`, catching and swallowing every
per-record failure (lines 193-202), and return how many succeeded, the
total, and how many POSTs actually reached the remote authority. -/
def submit_usage_records (authority : EnrichedUsageRecord → Bool)
    (records : List EnrichedUsageRecord) : ℕ × ℕ × ℕ :=
  (records.countP (fun r =>
      match submit_usage_record authority r with
      | (Except.ok _, _) => true
      | (Except.error _, _) => false),
   records.length,
   records.countP (fun r => (submit_usage_record authority r).2))

/-- `_process_usage_record` (redis_consumer.py lines 268-309): validate,
enrich with `server_id`, `server_region`, the processing time and
`app_version` (lines 278-284), submit the one-element batch, and raise
`RuntimeError` when `submitted_count` is 0 (line 309).  Returns the
enriched record the handler builds (none when validation failed), the
number of POSTs that reached the remote authority, and the outcome the
loop sees. -/
def process_usage_record (cfg : AgentConfig) (now : ℚ)
    (authority : EnrichedUsageRecord → Bool) (message_data : JsonObj) :
    Option EnrichedUsageRecord × ℕ × Except String Unit :=
  match parse_usage_record message_data with
  | Except.error e => (none, 0, Except.error e)
  | Except.ok usage_record =>
    let enriched : EnrichedUsageRecord :=
      { toUsageRecord := usage_record
        server_instance_id := cfg.server_id
        api_server_region := cfg.server_region
        processing_timestamp := now
        agent_version := cfg.app_version }
    let r := submit_usage_records authority [enriched]
    (some enriched, r.2.2,
      if 0 < r.1 then Except.ok ()
      else Except.error
        ("RuntimeError: failed to submit usage record for session " ++
          usage_record.api_session_id))

/-- The externally visible calls one consumer-loop iteration makes. -/
inductive ConsumerEvent
  | acknowledge (queue token : String)
  | dead_letter (queue token error_info : String)
  | submit_attempt
  | loop_error (e : String)
deriving Repr, DecidableEq

/-- One iteration of `_consume_usage_records` (redis_consumer.py lines
107-152), given the value `reliable_pop_message` returned — per its source
(redis_client.py line 184) and the integration tests of the repository, that
is `None` or the PAIR `(message_id, payload)`.  Line 115 binds
`message_data = result`, so `message_data` is that pair; line 117 then calls
`message_data.get("message_id", "unknown")`, which raises `AttributeError`
on a tuple BEFORE the inner `try` on line 119, and is caught only by the
loop-level handler (lines 146-152: log, sleep 1 s).  The inner branch
(handler, then acknowledge on success / dead-letter on failure, lines
119-142) is embedded faithfully below; it would require `message_data` to be
a dict. -/
def consume_usage_records_iteration (cfg : AgentConfig) (now : ℚ)
    (authority : EnrichedUsageRecord → Bool) (processing_queue : String)
    (pop_result : Option (String × JsonObj)) : List ConsumerEvent :=
  match pop_result with
  | none => []
  | some (message_id, payload) =>
    let result : PyVal := PyVal.pair (PyVal.str message_id) (PyVal.obj payload)
    let message_data := result
    match py_get message_data "message_id" (JsonVal.s "unknown") with
    | Except.error e => [ConsumerEvent.loop_error e]
    | Except.ok _ =>
      match message_data with
      | PyVal.obj o =>
        let r := process_usage_record cfg now authority o
        (List.replicate r.2.1 ConsumerEvent.submit_attempt) ++
          (match r.2.2 with
           | Except.ok _ =>
             [ConsumerEvent.acknowledge processing_queue (py_json_dumps message_data)]
           | Except.error e =>
             [ConsumerEvent.dead_letter processing_queue (py_json_dumps message_data) e])
      | _ => [ConsumerEvent.loop_error "TypeError"]

/-! ## The request primitive (src/services/control_plane_client.py, C6) -/

/-- What one HTTP attempt of `_execute_sync_request` comes back with:
a 2xx response (`raise_for_status` passes, line 70), a
`requests.RequestException` carrying a response with this status code, a
`requests` error without a response (connection refused and the like), or an
`asyncio.TimeoutError` from the executor wait (line 118). -/
inductive AttemptOutcome
  | success
  | http_status (code : ℕ)
  | conn_error
  | timeout_error
deriving Repr, DecidableEq

/-- The observable actions `_make_request` takes. -/
inductive ReqEvent
  | http_attempt (i : ℕ)
  | mark_success_call
  | mark_failure_call
  | sleep (d : ℤ)
deriving Repr, DecidableEq

/-- How `_make_request` ends. -/
inductive ReqResult
  | ok
  | client_error (code : ℕ)
  | terminal_error
  | circuit_open_error
  | diverged
deriving Repr, DecidableEq

/-- The retry check on lines 130-137 of `_make_request`, run after a failed
attempt when further attempts remain: re-consult `should_attempt_request`
(abort with the terminal error when it says no, diverge when it never
returns), else sleep `get_backoff_delay()` and retry. -/
def make_request_retry (cfg : BackoffConfig)
    (go : ConnState → ℤ → List ReqEvent → ReqResult × List ReqEvent × ConnState)
    (st : ConnState) (now : ℤ) (evts : List ReqEvent) :
    ReqResult × List ReqEvent × ConnState :=
  match should_attempt_request st with
  | none => (ReqResult.diverged, evts, st)
  | some false => (ReqResult.terminal_error, evts, st)
  | some true =>
    let d := get_backoff_delay cfg st
    go st (now + d) (evts ++ [ReqEvent.sleep d])

/-- The `for attempt in range(retry_attempts)` loop of `_make_request`
(lines 96-137), by recursion on the remaining attempts; falling out of the
loop raises the terminal `RuntimeError` (line 139).  Failed attempts call
`mark_failure` (lines 120, 127) — when that call never returns (the lock
re-entry in `mark_failure`), neither does the request, embedded as
`ReqResult.diverged`.  A 4xx `RequestException` re-raises immediately
without `mark_failure` (lines 123-125). -/
def make_request_attempts (cfg : BackoffConfig) (outcomes : ℕ → AttemptOutcome) :
    (remaining : ℕ) → (i : ℕ) → ConnState → ℤ → List ReqEvent →
    ReqResult × List ReqEvent × ConnState
  | 0, _, st, _, evts => (ReqResult.terminal_error, evts, st)
  | remaining + 1, i, st, now, evts =>
    let evts := evts ++ [ReqEvent.http_attempt i]
    match outcomes i with
    | AttemptOutcome.success =>
      (ReqResult.ok, evts ++ [ReqEvent.mark_success_call], mark_success st now)
    | AttemptOutcome.http_status code =>
      if 400 ≤ code ∧ code < 500 then (ReqResult.client_error code, evts, st)
      else
        match mark_failure st now with
        | none => (ReqResult.diverged, evts ++ [ReqEvent.mark_failure_call], st)
        | some st1 =>
          let evts := evts ++ [ReqEvent.mark_failure_call]
          if remaining = 0 then (ReqResult.terminal_error, evts, st1)
          else make_request_retry cfg
            (make_request_attempts cfg outcomes remaining (i + 1)) st1 now evts
    | AttemptOutcome.conn_error =>
      match mark_failure st now with
      | none => (ReqResult.diverged, evts ++ [ReqEvent.mark_failure_call], st)
      | some st1 =>
        let evts := evts ++ [ReqEvent.mark_failure_call]
        if remaining = 0 then (ReqResult.terminal_error, evts, st1)
        else make_request_retry cfg
          (make_request_attempts cfg outcomes remaining (i + 1)) st1 now evts
    | AttemptOutcome.timeout_error =>
      match mark_failure st now with
      | none => (ReqResult.diverged, evts ++ [ReqEvent.mark_failure_call], st)
      | some st1 =>
        let evts := evts ++ [ReqEvent.mark_failure_call]
        if remaining = 0 then (ReqResult.terminal_error, evts, st1)
        else make_request_retry cfg
          (make_request_attempts cfg outcomes remaining (i + 1)) st1 now evts

/-- `_make_request` (lines 73-139): the circuit-breaker gate on lines 82-84
(raise the synthetic circuit-open error without any network attempt when
`should_attempt_request` is false; diverge when that call never returns),
then the attempt loop.  `retry_attempts` is
`config.control_plane_retry_attempts` (default 3). -/
def make_request (cfg : BackoffConfig) (retry_attempts : ℕ)
    (outcomes : ℕ → AttemptOutcome) (st : ConnState) (now : ℤ) :
    ReqResult × List ReqEvent × ConnState :=
  match should_attempt_request st with
  | none => (ReqResult.diverged, [], st)
  | some false => (ReqResult.circuit_open_error, [], st)
  | some true => make_request_attempts cfg outcomes retry_attempts 0 st now []

/-! ## The heartbeat loop (src/services/health_metrics.py, C7) -/

inductive HbEvent
  | register_attempt
  | heartbeat_attempt
  | mark_success_call
  | mark_failure_call
  | sleep_backoff (d : ℤ)
  | sleep_interval
deriving Repr, DecidableEq

/-- One iteration of `_heartbeat_loop` (health_metrics.py lines 183-233),
over the registered flag, the connection state and the outcomes of the two
remote calls; `none` when a connection-state call inside it never returns.

* Lines 185-193: when `should_attempt_request()` is false the branch first
  logs `get_connection_info()` — whose body awaits `get_backoff_delay()`
  while holding the lock (connection_state.py line 128), so this branch
  never completes: `none`.  (When `should_attempt_request` itself never
  returns, likewise.)
* Lines 195-200 (`_register_server`, lines 145-179): on registration
  success set the flag and `mark_success`; on any failure `mark_failure`
  and clear the flag, then sleep the backoff and end the iteration.
* Lines 202-225: compute the health snapshot (`get_health_status` catches
  everything internally and touches no modelled state), send the heartbeat;
  on success `mark_success` and sleep `heartbeat_interval`.
* Lines 227-233: on any heartbeat failure the handler calls `mark_failure`,
  sleeps the backoff and continues — the `_registered` flag is NOT
  written on this path. -/
def heartbeat_iteration (cfg : BackoffConfig) (registered : Bool) (st : ConnState)
    (now : ℤ) (registration_ok heartbeat_ok : Bool) :
    Option (Bool × ConnState × List HbEvent) :=
  match should_attempt_request st with
  | none => none
  | some false => none
  | some true =>
    let after_reg : Option (Bool × ConnState × List HbEvent) :=
      if registered then some (true, st, [])
      else if registration_ok then
        some (true, mark_success st now, [HbEvent.register_attempt, HbEvent.mark_success_call])
      else
        match mark_failure st now with
        | none => none
        | some st1 => some (false, st1, [HbEvent.register_attempt, HbEvent.mark_failure_call])
    match after_reg with
    | none => none
    | some (false, st1, evts) =>
      some (false, st1, evts ++ [HbEvent.sleep_backoff (get_backoff_delay cfg st1)])
    | some (true, st1, evts) =>
      if heartbeat_ok then
        some (true, mark_success st1 now,
          evts ++ [HbEvent.heartbeat_attempt, HbEvent.mark_success_call, HbEvent.sleep_interval])
      else
        match mark_failure st1 now with
        | none => none
        | some st2 =>
          some (true, st2,
            evts ++ [HbEvent.heartbeat_attempt, HbEvent.mark_failure_call,
              HbEvent.sleep_backoff (get_backoff_delay cfg st2)])

/-! ## The remote-client health check (src/services/control_plane_client.py, C10) -/

/-- Every attribute any method of `ControlPlaneClient` assigns on `self`:
`__init__` (lines 30-36) sets the first five; `fetch_jwt_public_keys`
(lines 422-423) re-assigns the two cache fields.  `_client` is never
assigned. -/
def control_plane_client_assigned_attrs : List String :=
  ["config", "logger", "_jwt_keys_cache", "_jwt_keys_cached_at", "connection_state"]

inductive CpHealth
  | healthy
  | unhealthy
deriving Repr, DecidableEq

/-- `ControlPlaneClient.health_check` (lines 459-481).  Line 462 reads
`self._client`; since no method ever assigns that attribute, the lookup
raises `AttributeError`, the `except` on lines 476-481 catches it, and the
result is status unhealthy — the probe `_make_request("GET",
"/health/dataplane")` on line 470 is never reached.  The second component
records whether the probe was issued.  `client_truthy` stands for the
truthiness test `not self._client` would perform if the attribute existed;
`probe` for the outcome of the HTTP probe. -/
def control_plane_health_check (client_truthy : Bool) (probe : Except String Unit) :
    CpHealth × Bool :=
  if control_plane_client_assigned_attrs.contains "_client" then
    if client_truthy = false then (CpHealth.unhealthy, false)
    else
      match probe with
      | Except.ok _ => (CpHealth.healthy, true)
      | Except.error _ => (CpHealth.unhealthy, true)
  else (CpHealth.unhealthy, false)

/-- Decidable equality for `Except`, used to evaluate handler outcomes. -/
instance {e a : Type} [DecidableEq e] [DecidableEq a] : DecidableEq (Except e a) :=
  fun x y =>
    match x, y with
    | Except.ok u, Except.ok v =>
      if h : u = v then Decidable.isTrue (by rw [h]) else Decidable.isFalse (by simp [h])
    | Except.error u, Except.error v =>
      if h : u = v then Decidable.isTrue (by rw [h]) else Decidable.isFalse (by simp [h])
    | Except.ok _, Except.error _ => Decidable.isFalse (by simp)
    | Except.error _, Except.ok _ => Decidable.isFalse (by simp)

/-! ## Concrete fixtures used by the theorems -/

/-- The backoff configuration the unit tests of the repository build
(src/tests/unit/test_connection_state.py: delay 5, multiplier 2, cap 300). -/
def cfg_test : BackoffConfig :=
  { initial_error_delay := 5, error_backoff_multiplier := 2, max_backoff := 300 }

/-- The agent identity of the test configuration
(src/tests/conftest.py and the config defaults). -/
def cfg_agent : AgentConfig :=
  { server_id := "test-server-001", server_region := "test-region", app_version := "1.0.0" }

/-- A broker holding one serialized message `m1` on the usage-records queue. -/
def one_message_state : RedisState :=
  { queues := fun n => if n = "queue:usage_records" then ["m1"] else []
    kv := fun _ => none
    msg_counter := 0 }

/-- The broker right after `reliable_pop_message` moved `m1` into the
processing queue, with no acknowledge and no dead-letter afterwards. -/
def stranded_state : RedisState :=
  (reliable_pop_message one_message_state
    "queue:usage_records" "queue:usage_records:processing").2

/-- The connection state `mark_failure` has written at the moment it opens the
circuit (failure count 3, both times stamped) — the state in which the claims
consult `should_attempt_request`. -/
def open_circuit_state : ConnState :=
  { is_connected := false
    consecutive_failures := 3
    last_failure_time := some 30
    last_success_time := none
    circuit_open := true
    circuit_open_time := some 30 }

/-- The valid usage-record message of the spec scenario:
`connectionDurationSeconds = 30.0`, `audioDurationSeconds = 25.5`, all
required fields present, response not before request. -/
def scenario_usage_message : JsonObj :=
  [("transaction_id", JsonVal.s "txn-1"),
   ("api_session_id", JsonVal.s "session-1"),
   ("customer_id", JsonVal.s "customer-1"),
   ("product_code", JsonVal.s "SPEECH_TO_TEXT_STANDARD"),
   ("connection_duration_seconds", JsonVal.q 30),
   ("data_bytes_processed", JsonVal.i 1024),
   ("audio_duration_seconds", JsonVal.q (mkRat 51 2)),
   ("request_timestamp", JsonVal.q 1000),
   ("response_timestamp", JsonVal.q 1030)]

/-- The malformed usage-record message taken from the integration
test (only `api_session_id`; every other required field missing). -/
def malformed_usage_message : JsonObj :=
  [("api_session_id", JsonVal.s "test-session-001")]

/-! ## Helper lemmas -/

theorem get_queue_set_queue_same (st : RedisState) (q : String) (l : List String) :
    get_queue (set_queue st q l) q = l := by
  simp [get_queue, set_queue]

theorem get_queue_set_queue_ne (st : RedisState) (q q2 : String) (l : List String)
    (h : q2 ≠ q) : get_queue (set_queue st q l) q2 = get_queue st q2 := by
  simp [get_queue, set_queue, h]

theorem kv_set_queue (st : RedisState) (q : String) (l : List String) :
    (set_queue st q l).kv = st.kv := rfl

theorem counter_set_queue (st : RedisState) (q : String) (l : List String) :
    (set_queue st q l).msg_counter = st.msg_counter := rfl

/-! ## The claims -/

/-- Claim C1 (code_bug).  The claim says every popped message gets exactly
one of acknowledge or move-to-dead-letter.  In the code, line 115 of
src/services/redis_consumer.py binds `message_data` to the `(message_id,
payload)` pair that `reliable_pop_message` returns, and line 117 calls
`.get` on that pair — an `AttributeError` raised before the inner `try`, so
the loop-level handler swallows it: for EVERY popped message the iteration
performs zero acknowledges, zero dead-letter moves and zero submissions,
leaving the message in the processing queue. -/
theorem c1_popped_message_neither_acked_nor_dead_lettered :
    ∀ (cfg : AgentConfig) (now : ℚ) (authority : EnrichedUsageRecord → Bool)
      (processing_queue message_id : String) (payload : JsonObj),
      consume_usage_records_iteration cfg now authority processing_queue
        (some (message_id, payload)) =
        [ConsumerEvent.loop_error "AttributeError: tuple object has no attribute get"] :=
  fun _ _ _ _ _ _ => rfl

/-- Claim C2, counterexample.  The claim says the token `reliable_pop_message`
returns equals the serialized form of the moved payload and that
`acknowledge_message` with that token removes the payload.  Popping the
serialized message `m1` returns the generated id `queue:usage_records:1`,
which differs from `m1`, and acknowledging with that token removes nothing:
`m1` is still in the processing queue. -/
theorem c2_counterexample_token_differs_from_payload :
    (reliable_pop_message one_message_state
       "queue:usage_records" "queue:usage_records:processing").1 =
      some ("queue:usage_records:1", "m1") ∧
    ("queue:usage_records:1" : String) ≠ "m1" ∧
    get_queue
      (acknowledge_message stranded_state
        "queue:usage_records:processing" "queue:usage_records:1")
      "queue:usage_records:processing" = ["m1"] := by
  refine ⟨rfl, by decide, rfl⟩

/-- Claim C2, amended: `reliable_pop_message` returns the moved payload
together with a message-id token — the `str()` rendering of the BYTES
cached under `msg_id:<payload>` (a b-quoted repr, the client decoding no
responses), or `sourceQueue:<counter>` freshly generated — never the
serialized payload; the serialized payload itself is what lands at the head
of the processing queue, and `acknowledge_message` with the serialized
payload (not the token) removes exactly that occurrence. -/
theorem c2_amended_token_is_message_id_and_ack_uses_payload
    (st : RedisState) (src proc tok payload : String) (st1 : RedisState)
    (hne : src ≠ proc)
    (h : reliable_pop_message st src proc = (some (tok, payload), st1)) :
    tok = (match st.kv ("msg_id:" ++ payload) with
           | some m => py_bytes_repr m
           | none => src ++ ":" ++ toString (st.msg_counter + 1)) ∧
    get_queue st1 proc = payload :: get_queue st proc ∧
    get_queue (acknowledge_message st1 proc payload) proc = get_queue st proc := by
  have hps : proc ≠ src := fun hh => hne hh.symm
  rcases hlast : (st.queues src).getLast? with _ | item
  · exfalso
    simp [reliable_pop_message, brpoplpush, hlast] at h
  · rcases hkv : st.kv ("msg_id:" ++ item) with _ | mid
    · simp only [reliable_pop_message, brpoplpush, hlast, kv_set_queue, hkv,
        counter_set_queue, Prod.mk.injEq, Option.some.injEq] at h
      obtain ⟨⟨htok, hpay⟩, hst⟩ := h
      subst hpay
      subst hst
      subst htok
      rw [hkv]
      refine ⟨rfl, ?_, ?_⟩
      · simp [get_queue, kv_set, set_queue, hps]
      · simp [acknowledge_message, get_queue, kv_set, set_queue, lrem_one, hps]
    · simp only [reliable_pop_message, brpoplpush, hlast, kv_set_queue, hkv,
        Prod.mk.injEq, Option.some.injEq] at h
      obtain ⟨⟨htok, hpay⟩, hst⟩ := h
      subst hpay
      subst hst
      subst htok
      rw [hkv]
      refine ⟨rfl, ?_, ?_⟩
      · simp [get_queue, set_queue, hps]
      · simp [acknowledge_message, get_queue, set_queue, lrem_one, hps]

/-- Claim C2, witness: the amended statement at the concrete one-message
broker — the token is the freshly generated `queue:usage_records:1`, the
payload `m1` heads the processing queue, and acknowledging with the payload
restores the processing queue. -/
theorem c2_amended_witness :
    ("queue:usage_records:1" : String) =
      (match one_message_state.kv ("msg_id:" ++ "m1") with
       | some m => py_bytes_repr m
       | none => "queue:usage_records" ++ ":" ++ toString (one_message_state.msg_counter + 1)) ∧
    get_queue stranded_state "queue:usage_records:processing" =
      "m1" :: get_queue one_message_state "queue:usage_records:processing" ∧
    get_queue (acknowledge_message stranded_state "queue:usage_records:processing" "m1")
      "queue:usage_records:processing" =
      get_queue one_message_state "queue:usage_records:processing" :=
  c2_amended_token_is_message_id_and_ack_uses_payload one_message_state
    "queue:usage_records" "queue:usage_records:processing"
    "queue:usage_records:1" "m1" stranded_state (by decide) (by rfl)

/-- Claim C3 (code_bug).  The first conjunct confirms the crash-recovery
invariant: the popped message that is never acknowledged nor dead-lettered is
still in the processing queue.  But the startup recovery step of
`RedisConsumerService.start` invokes `recover_processing_queues`, a method
`RedisClient` does not define: the `AttributeError` is caught and logged
(non-fatally) and the broker state is untouched — the stranded message is
never moved back to the source queue, which stays empty. -/
theorem c3_startup_recovery_never_moves_stranded_messages :
    get_queue stranded_state "queue:usage_records:processing" = ["m1"] ∧
    (consumer_start_recovery stranded_state).1 =
      RecoveryOutcome.error_logged "AttributeError" ∧
    (consumer_start_recovery stranded_state).2 = stranded_state ∧
    get_queue (consumer_start_recovery stranded_state).2 "queue:usage_records" = [] :=
  ⟨rfl, rfl, rfl, rfl⟩

/-- Claim C4 (code_bug).  The first two `mark_failure` calls return, with the
failure count equal to the call count and the circuit still closed; but the
THIRD call — the one the claim says makes `circuitOpen` true — never
returns: having set the count to 3 and opened the circuit it awaits
`get_backoff_delay()` while still holding its own non-reentrant lock
(src/utils/connection_state.py line 70).  The sequence of three calls
therefore never completes, contradicting both the claim and the unit test
that drives three failures and then inspects the state. -/
theorem c4_third_mark_failure_never_returns :
    mark_failure_iter [10, 20] initial_conn_state =
      some { is_connected := false
             consecutive_failures := 2
             last_failure_time := some 20
             last_success_time := none
             circuit_open := false
             circuit_open_time := none } ∧
    mark_failure_iter [10, 20, 30] initial_conn_state = none :=
  ⟨rfl, rfl⟩

/-- Claim C5 (code_bug).  With the circuit closed, `should_attempt_request`
does return true; but in every open-circuit state `mark_failure` can produce
(count 3, both times stamped, as `open_circuit_state` records), the claim
says it returns true or false by comparing the elapsed time with the backoff
— instead the call awaits `get_backoff_delay()` while holding its own lock
(src/utils/connection_state.py line 103) and never returns. -/
theorem c5_should_attempt_request_diverges_when_circuit_open :
    should_attempt_request initial_conn_state = some true ∧
    should_attempt_request open_circuit_state = none :=
  ⟨rfl, rfl⟩

/-- Claim C6 (code_bug).  The 4xx part of the claim holds: a 404 on the
first attempt makes exactly one HTTP attempt, calls `mark_failure` zero
times, sleeps zero times, leaves the connection state untouched and
re-raises to the caller.  But the exhaustion part fails: with the configured
3 attempts all answering 503, each failed attempt calls `mark_failure` and
each retry is preceded by a backoff sleep (5 s then 10 s) — and the third
`mark_failure` call never returns (the lock re-entry of C4), so the request
diverges instead of raising the terminal error the claim requires. -/
theorem c6_four_xx_single_attempt_but_exhaustion_diverges :
    make_request cfg_test 3 (fun _ => AttemptOutcome.http_status 404)
      initial_conn_state 0 =
      (ReqResult.client_error 404, [ReqEvent.http_attempt 0], initial_conn_state) ∧
    (make_request cfg_test 3 (fun _ => AttemptOutcome.http_status 503)
      initial_conn_state 0).1 = ReqResult.diverged ∧
    (make_request cfg_test 3 (fun _ => AttemptOutcome.http_status 503)
      initial_conn_state 0).2.1 =
      [ReqEvent.http_attempt 0, ReqEvent.mark_failure_call, ReqEvent.sleep 5,
       ReqEvent.http_attempt 1, ReqEvent.mark_failure_call, ReqEvent.sleep 10,
       ReqEvent.http_attempt 2, ReqEvent.mark_failure_call] := by
  refine ⟨by decide, by decide, by decide⟩

/-- Claim C7, counterexample.  One iteration of the heartbeat loop from the
REGISTERED state with a failing heartbeat: the handler marks a failure and
sleeps the backoff, but the registered flag comes out TRUE — the service is
not demoted to UNREGISTERED, so the next cycle will not re-register. -/
theorem c7_counterexample_heartbeat_failure_keeps_registered :
    heartbeat_iteration cfg_test true initial_conn_state 0 true false =
      some (true,
        { is_connected := false
          consecutive_failures := 1
          last_failure_time := some 0
          last_success_time := none
          circuit_open := false
          circuit_open_time := none },
        [HbEvent.heartbeat_attempt, HbEvent.mark_failure_call,
         HbEvent.sleep_backoff 5]) ∧
    (heartbeat_iteration cfg_test true initial_conn_state 0 true false).map
      (fun r => r.1) ≠ some false :=
  ⟨by decide, by decide⟩

/-- Claim C7, amended: a failure during the heartbeat while REGISTERED does
NOT demote the service — the loop-level handler (health_metrics.py lines
229-233) marks a connection failure and sleeps the current backoff delay,
leaving `_registered` true, so the next cycle sends another heartbeat without
re-registering; `_registered` is cleared only by a failed registration
attempt inside `_register_server`. -/
theorem c7_amended_heartbeat_failure_no_demotion
    (cfg : BackoffConfig) (st st1 : ConnState) (now : ℤ) (registration_ok : Bool)
    (hopen : st.circuit_open = false)
    (hmf : mark_failure st now = some st1) :
    heartbeat_iteration cfg true st now registration_ok false =
      some (true, st1,
        [HbEvent.heartbeat_attempt, HbEvent.mark_failure_call,
         HbEvent.sleep_backoff (get_backoff_delay cfg st1)]) := by
  simp [heartbeat_iteration, should_attempt_request, hopen, hmf]

/-- Claim C7, witness: the amended statement at the initial connection state
with a failing heartbeat. -/
theorem c7_amended_witness :
    heartbeat_iteration cfg_test true initial_conn_state 7 true false =
      some (true,
        { is_connected := false
          consecutive_failures := 1
          last_failure_time := some 7
          last_success_time := none
          circuit_open := false
          circuit_open_time := none },
        [HbEvent.heartbeat_attempt, HbEvent.mark_failure_call,
         HbEvent.sleep_backoff 5]) := by
  have h5 : get_backoff_delay cfg_test
      { is_connected := false
        consecutive_failures := 1
        last_failure_time := some 7
        last_success_time := none
        circuit_open := false
        circuit_open_time := none } = 5 := by decide
  have h := c7_amended_heartbeat_failure_no_demotion cfg_test initial_conn_state
    { is_connected := false
      consecutive_failures := 1
      last_failure_time := some 7
      last_success_time := none
      circuit_open := false
      circuit_open_time := none } 7 true rfl rfl
  rw [h5] at h
  exact h

/-- Claim C9 (code_bug).  Two independent defects refute the claim.  The
handler does build the enriched record correctly (proved below: it carries
the configured server id, region, agent version and the processing
timestamp), but even with the remote authority answering success the
submission NEVER reaches it: building the POST body reads the nonexistent
`request_count` attribute and raises `AttributeError` before any HTTP
call, the batch wrapper swallows it, `submitted_count` stays 0, zero POSTs
are issued, and the handler raises `RuntimeError`.  And in the consumer
loop the popped message is never acknowledged anyway: the iteration dies on
the tuple `AttributeError` of C1 before ever invoking the handler. -/
theorem c9_submission_never_reaches_authority_and_message_never_acknowledged :
    process_usage_record cfg_agent 2000 (fun _ => true) scenario_usage_message =
      (some
        { transaction_id := "txn-1"
          api_session_id := "session-1"
          customer_id := "customer-1"
          product_code := "SPEECH_TO_TEXT_STANDARD"
          connection_duration_seconds := 30
          data_bytes_processed := 1024
          audio_duration_seconds := mkRat 51 2
          request_timestamp := 1000
          response_timestamp := 1030
          server_instance_id := "test-server-001"
          api_server_region := "test-region"
          processing_timestamp := 2000
          agent_version := "1.0.0" },
       0,
       Except.error
         "RuntimeError: failed to submit usage record for session session-1") ∧
    consume_usage_records_iteration cfg_agent 2000 (fun _ => true)
      "queue:usage_records:processing" (some ("m-1", scenario_usage_message)) =
      [ConsumerEvent.loop_error "AttributeError: tuple object has no attribute get"] :=
  ⟨by decide, rfl⟩

/-- Claim C10 (confirmed).  `ControlPlaneClient.health_check` reads
`self._client`, an attribute no method of the class ever assigns; the
`AttributeError` sends every invocation down the exception path, so the
result status is unhealthy and the HTTP health probe is never issued,
whatever the truthiness of the attribute would have been and whatever the
probe would have answered. -/
theorem c10_health_check_always_unhealthy_and_never_probes :
    ∀ (client_truthy : Bool) (probe : Except String Unit),
      control_plane_health_check client_truthy probe = (CpHealth.unhealthy, false) :=
  fun _ _ => rfl

end DataPlaneAgent
